import Mathlib

/-!
Verification of the adovework backend against its specification.

Shallow embedding of the relevant Python functions:
* `app/services/pdf/convert.py` — `analyze_pdf_type`, `pdf_to_word` dispatch
* `app/services/pdf/editor.py` — `PDFEditor.replace_text`, `PDFEditor.redact_text`
* `app/services/pdf/operations.py` — `split_pdf`
* `app/utils/file.py` — `validate_pdf_file`, `validate_image_file`, `cleanup_file`
* `app/tasks/workers.py` — `cleanup_old_files`
* `app/services/image/passport.py` — `mm_to_pixels`, `create_passport_photo`
* `app/api/v1/pdf.py` — the `pdf_to_word` and `split_pdf` endpoints

Machine integers are modelled as `Nat`/`Int`/`ℚ`; Python float arithmetic in the
passport-photo placement is modelled with exact rationals, and `int(...)`
truncation with an explicit truncation function.
-/

namespace AdobeWork

/-! ## PDF analysis — `analyze_pdf_type` (convert.py lines 38-102)

A page is abstracted by the two quantities the function reads from it:
the length of its stripped text (`len(page.get_text().strip())`) and the
number of its images (`len(page.get_images())`). -/

structure PageInfo where
  textLen : Nat
  imageCount : Nat
deriving Repr, DecidableEq

/-- Sum of stripped-text lengths over the first `min(10, page_count)` pages,
as accumulated by the loop in `analyze_pdf_type`. -/
def totalTextLength (pages : List PageInfo) : Nat :=
  ((pages.take (min 10 pages.length)).map (·.textLen)).sum

/-- Sum of image counts over the first `min(10, page_count)` pages. -/
def totalImages (pages : List PageInfo) : Nat :=
  ((pages.take (min 10 pages.length)).map (·.imageCount)).sum

structure PdfAnalysis where
  is_scanned : Bool
  is_complex : Bool
  has_text : Bool
  image_count : Nat
  text_length : Nat
  page_count : Nat
  recommendation : String
deriving Repr, DecidableEq

/-- Translation of `analyze_pdf_type` (convert.py lines 38-102), success path. -/
def analyze_pdf_type (pages : List PageInfo) : PdfAnalysis :=
  let page_count := pages.length
  let total_text_length := totalTextLength pages
  let total_images := totalImages pages
  let has_text := decide (total_text_length > 100)
  let has_many_images := decide (total_images ≥ page_count)
  let is_scanned := decide (total_text_length < 100) && decide (total_images > 0)
  let is_complex := has_text && has_many_images
  let recommendation :=
    if is_scanned then "ocr"
    else if is_complex then "hybrid"
    else if has_text && !has_many_images then "text"
    else "image"
  { is_scanned := is_scanned
    is_complex := is_complex
    has_text := has_text
    image_count := total_images
    text_length := total_text_length
    page_count := page_count
    recommendation := recommendation }

/-- C1: the recommendation and the boolean fields of `analyze_pdf_type` are
exactly the thresholds the claim states: with L the total stripped-text length
and I the total image count over the first min(10, page_count) pages,
recommendation is "ocr" iff L < 100 and I > 0, "hybrid" iff L > 100 and
I ≥ page_count, "text" iff L > 100 and I < page_count, and "image" in every
remaining case; has_text = (L > 100), is_scanned = (L < 100 and I > 0), and
is_complex = (has_text and I ≥ page_count). -/
theorem analyze_pdf_type_thresholds (pages : List PageInfo) :
    ((analyze_pdf_type pages).recommendation = "ocr" ↔
      (totalTextLength pages < 100 ∧ 0 < totalImages pages)) ∧
    ((analyze_pdf_type pages).recommendation = "hybrid" ↔
      (100 < totalTextLength pages ∧ pages.length ≤ totalImages pages)) ∧
    ((analyze_pdf_type pages).recommendation = "text" ↔
      (100 < totalTextLength pages ∧ totalImages pages < pages.length)) ∧
    ((analyze_pdf_type pages).recommendation = "image" ↔
      (¬(totalTextLength pages < 100 ∧ 0 < totalImages pages) ∧
       ¬(100 < totalTextLength pages ∧ pages.length ≤ totalImages pages) ∧
       ¬(100 < totalTextLength pages ∧ totalImages pages < pages.length))) ∧
    ((analyze_pdf_type pages).has_text = true ↔ 100 < totalTextLength pages) ∧
    ((analyze_pdf_type pages).is_scanned = true ↔
      (totalTextLength pages < 100 ∧ 0 < totalImages pages)) ∧
    ((analyze_pdf_type pages).is_complex = true ↔
      (100 < totalTextLength pages ∧ pages.length ≤ totalImages pages)) := by
  by_cases h1 : totalTextLength pages < 100 <;>
  by_cases h2 : 0 < totalImages pages <;>
  by_cases h3 : 100 < totalTextLength pages <;>
  by_cases h4 : pages.length ≤ totalImages pages <;>
    simp [analyze_pdf_type, h1, h2, h3, h4] <;>
    omega

/-! ## Path helpers (Python `pathlib.Path` semantics, POSIX flavour)

`Path(p).name` is the component after the last slash; `Path(p).suffix` is the
trailing `.xyz` part of the name, empty unless the last dot sits strictly
inside the name (CPython: `0 < name.rfind(".") < len(name) - 1`). -/

/-- Component of a path after the last slash. -/
def pyPathName (p : String) : String :=
  String.mk ((p.data.reverse.takeWhile (· ≠ '/')).reverse)

/-- Suffix of a file name, per CPython `PurePath.suffix`. -/
def pySuffix (name : String) : String :=
  let cs := name.data
  match cs.reverse.findIdx? (· = '.') with
  | none => ""
  | some r =>
    let i := cs.length - 1 - r
    if 0 < i ∧ i < cs.length - 1 then String.mk (cs.drop i) else ""

/-- Translation of `Path(p).with_suffix(suf)`: replace the name's suffix
(drop it if present) and append `suf`. -/
def pyWithSuffix (p : String) (suf : String) : String :=
  p.dropRight (pySuffix (pyPathName p)).length ++ suf

/-- Lower-casing a string character by character (ASCII, which covers every
extension the validators compare against). -/
def strToLower (s : String) : String :=
  String.mk (s.data.map Char.toLower)

/-- Translation of `get_file_extension` (utils/file.py):
`Path(filename).suffix.lower()`. -/
def get_file_extension (filename : String) : String :=
  strToLower (pySuffix (pyPathName filename))

/-! ## PDF-to-Word dispatch — `pdf_to_word` (convert.py lines 476-550)

Each of the five concrete conversion routines resolves a `None` output path to
`Path(pdf_path).with_suffix(".docx")` and finally returns that resolved path
(convert.py lines 219, 303, 371/374, 473, 512/544); the file writing they do
in between does not affect the returned value, so each is embedded as the
function returning its resolved output path.  The `try/except` around the
pdf2docx converter is modelled by the flag `pdf2docxRaises`. -/

inductive WordConverter where
  | pdf2docx
  | advanced
  | withOcr
  | hybridMode
  | imageMode
deriving Repr, DecidableEq

/-- Translation of `pdf_to_word_image_mode` (convert.py lines 155-219), return value. -/
def pdf_to_word_image_mode (pdfPath : String) (outputPath : Option String) : String :=
  outputPath.getD (pyWithSuffix pdfPath ".docx")

/-- Translation of `pdf_to_word_hybrid_mode` (convert.py lines 222-303), return value. -/
def pdf_to_word_hybrid_mode (pdfPath : String) (outputPath : Option String) : String :=
  outputPath.getD (pyWithSuffix pdfPath ".docx")

/-- Translation of `pdf_to_word_advanced` (convert.py lines 377-473), return value. -/
def pdf_to_word_advanced (pdfPath : String) (outputPath : Option String) : String :=
  outputPath.getD (pyWithSuffix pdfPath ".docx")

/-- Translation of `pdf_to_word_with_ocr` (convert.py lines 306-374), return value:
it returns its resolved output path both on success and via the
`pdf_to_word_advanced` fallback. -/
def pdf_to_word_with_ocr (pdfPath : String) (outputPath : Option String) : String :=
  outputPath.getD (pyWithSuffix pdfPath ".docx")

/-- Translation of `pdf_to_word` (convert.py lines 476-550).  The input PDF is
abstracted by its `pages` (driving `analyze_pdf_type` in auto mode); the result
records which conversion routine ends up doing the work together with the
returned path. -/
def pdf_to_word (pages : List PageInfo) (pdfPath : String)
    (outputPath : Option String) (mode : String) (pdf2docxRaises : Bool) :
    WordConverter × String :=
  let output_path := outputPath.getD (pyWithSuffix pdfPath ".docx")
  if mode = "auto" then
    let analysis := analyze_pdf_type pages
    let recommendation := analysis.recommendation
    if recommendation = "text" then
      if pdf2docxRaises then
        (.advanced, pdf_to_word_advanced pdfPath (some output_path))
      else
        (.pdf2docx, output_path)
    else if recommendation = "ocr" then
      (.withOcr, pdf_to_word_with_ocr pdfPath (some output_path))
    else if recommendation = "hybrid" then
      (.hybridMode, pdf_to_word_hybrid_mode pdfPath (some output_path))
    else
      (.imageMode, pdf_to_word_image_mode pdfPath (some output_path))
  else if mode = "hybrid" then
    (.hybridMode, pdf_to_word_hybrid_mode pdfPath (some output_path))
  else if mode = "image" then
    (.imageMode, pdf_to_word_image_mode pdfPath (some output_path))
  else if mode = "ocr" then
    (.withOcr, pdf_to_word_with_ocr pdfPath (some output_path))
  else if mode = "text" then
    if pdf2docxRaises then
      (.advanced, pdf_to_word_advanced pdfPath (some output_path))
    else
      (.pdf2docx, output_path)
  else
    (.hybridMode, pdf_to_word_hybrid_mode pdfPath (some output_path))

/-- Dispatch table written from the claim's words (not from the source), for
comparison with `pdf_to_word`: mode 'auto' selects by the recommendation
('text' uses pdf2docx, falling back to advanced if it raises; 'ocr' uses OCR;
'hybrid' uses hybrid mode; anything else image mode); explicit 'hybrid',
'image', 'ocr', 'text' select the corresponding routine; any other mode falls
back to hybrid mode. -/
def dispatchSpec (recommendation mode : String) (pdf2docxRaises : Bool) :
    WordConverter :=
  if mode = "auto" then
    if recommendation = "text" then
      if pdf2docxRaises then .advanced else .pdf2docx
    else if recommendation = "ocr" then .withOcr
    else if recommendation = "hybrid" then .hybridMode
    else .imageMode
  else if mode = "hybrid" then .hybridMode
  else if mode = "image" then .imageMode
  else if mode = "ocr" then .withOcr
  else if mode = "text" then
    if pdf2docxRaises then .advanced else .pdf2docx
  else .hybridMode

/-- C2: `pdf_to_word` dispatches exactly as the claim documents — mode 'auto'
selects by `analyze_pdf_type`'s recommendation (with the pdf2docx-to-advanced
fallback), explicit modes select the corresponding routine, any other mode
falls back to hybrid mode — and in every case the returned path is
`output_path` (the input path with suffix replaced by ".docx" when
`output_path` is None). -/
theorem pdf_to_word_dispatch (pages : List PageInfo) (pdfPath : String)
    (outputPath : Option String) (mode : String) (pdf2docxRaises : Bool) :
    pdf_to_word pages pdfPath outputPath mode pdf2docxRaises =
      (dispatchSpec (analyze_pdf_type pages).recommendation mode pdf2docxRaises,
       outputPath.getD (pyWithSuffix pdfPath ".docx")) := by
  unfold pdf_to_word dispatchSpec pdf_to_word_advanced pdf_to_word_with_ocr
    pdf_to_word_hybrid_mode pdf_to_word_image_mode
  dsimp only
  repeat' first | rfl | split

/-! ## PDF editor — `PDFEditor.replace_text` / `PDFEditor.redact_text`
(editor.py lines 151-203 and 351-377)

A page is abstracted by the block/line/span structure that
`page.get_text("dict")["blocks"]` exposes, together with the list of
bounding boxes `page.search_for(old_text)` returns for the text being
searched.  Rectangle coordinates follow fitz: y grows downward, so
`(x0, y1)` is the lower-left corner of a box. -/

structure Span where
  text : String
  font : String
  size : ℚ
  color : Nat
deriving Repr, DecidableEq

abbrev Line := List Span

inductive Block where
  | text (lines : List Line)
  | image
deriving Repr, DecidableEq

structure Rect where
  x0 : ℚ
  y0 : ℚ
  x1 : ℚ
  y1 : ℚ
deriving Repr, DecidableEq

/-- Page content as `replace_text` reads it: the text blocks, and the search
hits for the one string the operation looks for. -/
structure Page where
  blocks : List Block
  instances : List Rect
deriving Repr, DecidableEq

/-- Infix test on lists: does `needle` occur contiguously inside `haystack`? -/
def listInfix (needle haystack : List Char) : Bool :=
  (List.range (haystack.length + 1)).any
    (fun i => needle.isPrefixOf (haystack.drop i))

/-- Python substring test `needle in haystack`. -/
def strContains (haystack needle : String) : Bool :=
  listInfix needle.data haystack.data

/-- Formatting triple the span scan accumulates: font name, font size, and the
RGB colour converted to the 0-1 range. -/
structure Fmt where
  font : String
  size : ℚ
  color : ℚ × ℚ × ℚ
deriving Repr, DecidableEq

/-- Translation of the colour conversion in `replace_text` (editor.py line 186):
`((c >> 16) / 255, ((c >> 8) & 0xFF) / 255, (c & 0xFF) / 255)` — the first
component carries no `& 0xFF` mask, exactly as in the source. -/
def colorToRGB (c : Nat) : ℚ × ℚ × ℚ :=
  (((c >>> 16 : Nat) : ℚ) / 255, (((c >>> 8) &&& 0xFF : Nat) : ℚ) / 255,
   ((c &&& 0xFF : Nat) : ℚ) / 255)

/-- One line of the span scan: the `break` in the Python loop leaves the inner
span loop only, so each line contributes its first span containing `old`
(if any), overwriting whatever an earlier line set. -/
def scanLine (old : String) (acc : Fmt) (line : Line) : Fmt :=
  match line.find? (fun s => strContains s.text old) with
  | some s => { font := s.font, size := s.size, color := colorToRGB s.color }
  | none => acc

/-- Translation of the formatting lookup inside `replace_text` (editor.py
lines 171-187), starting from the defaults `"helv"`, `12`, black. -/
def scanFormatting (old : String) (blocks : List Block) : Fmt :=
  blocks.foldl
    (fun acc b =>
      match b with
      | .text lines => lines.foldl (scanLine old) acc
      | .image => acc)
    { font := "helv", size := 12, color := (0, 0, 0) }

/-- Arguments of one `page.insert_text` call made by `replace_text`.  The call
at editor.py lines 194-199 passes `point`, `text`, `fontsize` and `color` but
no `fontname`, so the run is rendered in the library's default font `helv`. -/
structure InsertedRun where
  point : ℚ × ℚ
  text : String
  fontname : String
  fontsize : ℚ
  color : ℚ × ℚ × ℚ
deriving Repr, DecidableEq

/-- Translation of the per-page body of `replace_text` (editor.py lines
166-201): for each search hit, re-scan the page for formatting, redact the
hit, and insert `new` at the hit's lower-left corner.  The model reads the
same block snapshot for every hit (the source re-reads the page after each
redaction; for the properties proved here a single hit is used, where the two
agree). -/
def replaceTextPage (old new : String) (page : Page) : Nat × List InsertedRun :=
  page.instances.foldl
    (fun acc inst =>
      let fmt := scanFormatting old page.blocks
      (acc.1 + 1,
       acc.2 ++ [{ point := (inst.x0, inst.y1), text := new, fontname := "helv",
                   fontsize := fmt.size, color := fmt.color }]))
    (0, [])

/-- Translation of `pages = page_nums if page_nums else range(len(self.doc))`
(editor.py lines 163-164 and 363-364): a `None` and an empty list are both
falsy, so both select every page. -/
def selectedPages (pageNums : Option (List Nat)) (numPages : Nat) : List Nat :=
  match pageNums with
  | some (p :: ps) => p :: ps
  | _ => List.range numPages

/-- Translation of `PDFEditor.replace_text` (editor.py lines 151-203):
total replacement count and the inserted runs, tagged with their page. -/
def replace_text (doc : List Page) (old new : String)
    (pageNums : Option (List Nat)) : Nat × List (Nat × InsertedRun) :=
  (selectedPages pageNums doc.length).foldl
    (fun acc pn =>
      let page := (doc.get? pn).getD { blocks := [], instances := [] }
      let r := replaceTextPage old new page
      (acc.1 + r.1, acc.2 ++ r.2.map (fun run => (pn, run))))
    (0, [])

set_option linter.unusedVariables false in
/-- Translation of `PDFEditor.redact_text` (editor.py lines 351-377):
redaction count and the redacted boxes, tagged with their page.  The searched
string only determines each page's `instances` field, so it is not consumed
again in the body. -/
def redact_text (doc : List Page) (search : String)
    (pageNums : Option (List Nat)) : Nat × List (Nat × Rect) :=
  (selectedPages pageNums doc.length).foldl
    (fun acc pn =>
      let page := (doc.get? pn).getD { blocks := [], instances := [] }
      (acc.1 + page.instances.length,
       acc.2 ++ page.instances.map (fun r => (pn, r))))
    (0, [])

/-- C3: on a page whose only span carries font "Times-Roman", size 14 and
colour 0xFF0000, replacing one occurrence redacts its box and re-inserts the
new text at the box's lower-left corner with the span's size and colour — but
with the default font "helv", because the `insert_text` call omits `fontname`
even though the code computed the span's font; this contradicts the claim and
the method's own "preserving formatting" purpose. -/
theorem replace_text_font_not_preserved :
    replaceTextPage "Hello" "Goodbye"
        { blocks := [Block.text [[{ text := "Hello world", font := "Times-Roman",
                                    size := 14, color := 0xFF0000 }]]],
          instances := [{ x0 := 10, y0 := 20, x1 := 60, y1 := 32 }] } =
      ((1, [{ point := (10, 32), text := "Goodbye", fontname := "helv",
              fontsize := 14, color := (1, 0, 0) }]) : Nat × List InsertedRun) ∧
    (scanFormatting "Hello"
        [Block.text [[{ text := "Hello world", font := "Times-Roman",
                        size := 14, color := 0xFF0000 }]]]).font = "Times-Roman" ∧
    ("helv" : String) ≠ "Times-Roman" := by
  refine ⟨?_, by decide, by decide⟩
  simp only [replaceTextPage, scanFormatting, scanLine, colorToRGB, strContains,
    listInfix, List.foldl, List.find?, List.range, List.any]
  norm_num [Nat.shiftRight_eq_div_pow]
  decide

/-- C10: calling `replace_text` or `redact_text` with an empty `page_nums`
list is the same as calling it with `None` — the empty list selects every
page of the document, not zero pages. -/
theorem empty_page_nums_means_all_pages (doc : List Page)
    (old new search : String) :
    selectedPages (some []) doc.length = List.range doc.length ∧
    replace_text doc old new (some []) = replace_text doc old new none ∧
    redact_text doc search (some []) = redact_text doc search none := by
  exact ⟨rfl, rfl, rfl⟩

/-! ## PDF splitting — `split_pdf` (operations.py lines 40-106)

The `PdfReader` is abstracted by its page count; an output file is abstracted
by its path and the 0-based reader indices of the pages written into it. -/

/-- Stem of a file name: the name with its suffix removed (`Path(p).stem`). -/
def pyStem (name : String) : String :=
  name.dropRight (pySuffix name).length

/-- Python truthiness of an `Optional[int]`: `None` and `0` are falsy. -/
def intTruthy (o : Option ℤ) : Bool :=
  match o with
  | some v => v != 0
  | none => false

/-- Python `range(a, b)` over integers. -/
def intRange (a b : ℤ) : List ℤ :=
  (List.range (b - a).toNat).map (fun (k : ℕ) => a + (k : ℤ))

/-- Membership in `intRange a b` means lying in the half-open interval. -/
theorem mem_intRange {a b i : ℤ} (h : i ∈ intRange a b) : a ≤ i ∧ i < b := by
  simp only [intRange, List.mem_map, List.mem_range] at h
  obtain ⟨k, hk, rfl⟩ := h
  omega

structure SplitOutput where
  path : String
  pageIndices : List ℤ
deriving Repr, DecidableEq

/-- Translation of `split_pdf` (operations.py lines 40-106).  Mode "range"
writes the pages `range(start_page - 1, min(end_page, total_pages))`; mode
"extract" writes the listed pages after filtering them to `1..total_pages`;
unmatched mode/parameter combinations produce no output file.  No branch can
fail on out-of-range values. -/
def split_pdf (pdfPath outputDir : String) (totalPages : Nat) (mode : String)
    (startPage endPage : Option ℤ) (pages : Option (List ℤ)) :
    List SplitOutput :=
  let base_name := pyStem (pyPathName pdfPath)
  if mode == "all" then
    (List.range totalPages).map (fun i =>
      { path := outputDir ++ "/" ++ base_name ++ "_page_" ++ toString (i + 1) ++ ".pdf",
        pageIndices := [(i : ℤ)] })
  else if mode == "range" && intTruthy startPage && intTruthy endPage then
    let s := startPage.getD 0
    let e := endPage.getD 0
    [{ path := outputDir ++ "/" ++ base_name ++ "_pages_" ++ toString s ++ "-"
         ++ toString e ++ ".pdf",
       pageIndices := intRange (s - 1) (min e (totalPages : ℤ)) }]
  else if mode == "extract" && !(pages.getD []).isEmpty then
    let ps := pages.getD []
    let pages_str :=
      String.intercalate "_" ((ps.take 5).map toString) ++
        (if ps.length > 5 then "_etc" else "")
    [{ path := outputDir ++ "/" ++ base_name ++ "_extracted_" ++ pages_str ++ ".pdf",
       pageIndices := (ps.filter (fun p => decide (1 ≤ p ∧ p ≤ (totalPages : ℤ)))).map
         (fun p => p - 1) }]
  else []

/-- C4 counterexample: splitting a 2-page PDF with the range 1-5 does not fail
with a validation error — it silently clamps and returns a normal output
holding pages 1 and 2; extracting pages [1, 7] silently skips page 7.  No
error path exists for out-of-range values, contradicting the claim. -/
theorem split_pdf_out_of_range_is_silent :
    split_pdf "doc.pdf" "out" 2 "range" (some 1) (some 5) none =
      [{ path := "out/doc_pages_1-5.pdf", pageIndices := [0, 1] }] ∧
    split_pdf "doc.pdf" "out" 2 "extract" none none (some [1, 7]) =
      [{ path := "out/doc_extracted_1_7.pdf", pageIndices := [0] }] := by
  constructor <;> rfl

/-- C4 amended: out-of-range page values in `split_pdf` are handled silently,
with no error: a "range" split clamps its end at `min(end_page, total_pages)`,
an "extract" split keeps only the listed pages inside `1..total_pages`, and
(for a non-negative start) every page index ever written is a valid 0-based
index below the document's page count. -/
theorem split_pdf_out_of_range_behavior (pdfPath outputDir : String)
    (totalPages : Nat) (s e : ℤ) (ps : List ℤ) :
    (s ≠ 0 → e ≠ 0 →
      (split_pdf pdfPath outputDir totalPages "range" (some s) (some e) none).map
          (·.pageIndices) =
        [intRange (s - 1) (min e (totalPages : ℤ))]) ∧
    (ps ≠ [] →
      (split_pdf pdfPath outputDir totalPages "extract" none none (some ps)).map
          (·.pageIndices) =
        [(ps.filter (fun p => decide (1 ≤ p ∧ p ≤ (totalPages : ℤ)))).map
          (fun p => p - 1)]) ∧
    (1 ≤ s → e ≠ 0 →
      ∀ out ∈ split_pdf pdfPath outputDir totalPages "range" (some s) (some e) none,
        ∀ i ∈ out.pageIndices, 0 ≤ i ∧ i < (totalPages : ℤ)) ∧
    (∀ out ∈ split_pdf pdfPath outputDir totalPages "extract" none none (some ps),
      ∀ i ∈ out.pageIndices, 0 ≤ i ∧ i < (totalPages : ℤ)) := by
  refine ⟨?_, ?_, ?_, ?_⟩
  · intro hs he
    simp [split_pdf, intTruthy, hs, he]
  · intro hps
    simp [split_pdf, intTruthy, hps]
  · intro hs he out hout i hi
    simp [split_pdf, intTruthy, (by omega : s ≠ 0), he] at hout
    obtain ⟨-, rfl⟩ := hout
    obtain ⟨hai, hib⟩ := mem_intRange hi
    refine ⟨by omega, lt_of_lt_of_le hib ?_⟩
    exact min_le_right _ _
  · intro out hout i hi
    by_cases hps : ps = []
    · simp [split_pdf, hps] at hout
    · simp [split_pdf, intTruthy, hps] at hout
      subst hout
      simp only [List.mem_map, List.mem_filter] at hi
      obtain ⟨p, ⟨hpmem, hp⟩, rfl⟩ := hi
      simp only [Bool.and_eq_true, decide_eq_true_eq] at hp
      omega

/-- Witness for C4 (amended) at a concrete split: the range 1-5 on a 2-page
document yields the clamped page list `range(0, min(5, 2))`. -/
theorem split_pdf_out_of_range_behavior_witness :
    (split_pdf "doc.pdf" "out" 2 "range" (some 1) (some 5) none).map
        (·.pageIndices) = [intRange (1 - 1) (min 5 ((2 : Nat) : ℤ))] :=
  (split_pdf_out_of_range_behavior "doc.pdf" "out" 2 1 5 [1, 7]).1
    (by decide) (by decide)

/-! ## Upload validation — `validate_pdf_file`, `validate_image_file`
(utils/file.py lines 109-130) -/

structure HTTPError where
  status_code : Nat
  detail : String
deriving Repr, DecidableEq

/-- Translation of `validate_pdf_file` (utils/file.py lines 109-116).  The
upload's filename is `Option String`; `not file.filename` is true for both a
missing filename and the empty string. -/
def validate_pdf_file (filename : Option String) : Except HTTPError Unit :=
  match filename with
  | none => .error { status_code := 400, detail := "No filename provided" }
  | some f =>
    if f = "" then .error { status_code := 400, detail := "No filename provided" }
    else if get_file_extension f ≠ ".pdf" then
      .error { status_code := 400, detail := "File must be a PDF" }
    else .ok ()

/-- Image extensions accepted by `validate_image_file` (utils/file.py line 125). -/
def validImageExtensions : List String :=
  [".png", ".jpg", ".jpeg", ".webp", ".gif", ".bmp", ".tiff"]

/-- Translation of `validate_image_file` (utils/file.py lines 119-130). -/
def validate_image_file (filename : Option String) : Except HTTPError Unit :=
  match filename with
  | none => .error { status_code := 400, detail := "No filename provided" }
  | some f =>
    if f = "" then .error { status_code := 400, detail := "No filename provided" }
    else if get_file_extension f ∉ validImageExtensions then
      .error { status_code := 400,
               detail := "Invalid image format. Supported: .png, .jpg, .jpeg, .webp, .gif, .bmp, .tiff" }
    else .ok ()

/-- C6: `validate_pdf_file` succeeds exactly when a non-empty filename is
present whose lower-cased extension is ".pdf", `validate_image_file` exactly
when the lower-cased extension is one of the seven image extensions; every
failure carries status code 400, and both are pure — success returns the
unit value and modifies nothing. -/
theorem validate_file_400_iff (f : Option String) :
    (validate_pdf_file f = .ok () ↔
      (∃ s, f = some s ∧ s ≠ "" ∧ get_file_extension s = ".pdf")) ∧
    (validate_image_file f = .ok () ↔
      (∃ s, f = some s ∧ s ≠ "" ∧ get_file_extension s ∈ validImageExtensions)) ∧
    (∀ e, validate_pdf_file f = .error e → e.status_code = 400) ∧
    (∀ e, validate_image_file f = .error e → e.status_code = 400) := by
  refine ⟨?_, ?_, ?_, ?_⟩
  · cases f with
    | none => simp [validate_pdf_file]
    | some s =>
      by_cases h1 : s = "" <;> by_cases h2 : get_file_extension s = ".pdf" <;>
        simp [validate_pdf_file, h1, h2]
  · cases f with
    | none => simp [validate_image_file]
    | some s =>
      by_cases h1 : s = "" <;>
      by_cases h3 : get_file_extension s ∈ validImageExtensions <;>
        simp [validate_image_file, h1, h3]
  · intro e he
    cases f with
    | none =>
      simp only [validate_pdf_file] at he
      cases he
      rfl
    | some s =>
      simp only [validate_pdf_file] at he
      split at he
      · cases he; rfl
      · split at he
        · cases he; rfl
        · cases he
  · intro e he
    cases f with
    | none =>
      simp only [validate_image_file] at he
      cases he
      rfl
    | some s =>
      simp only [validate_image_file] at he
      split at he
      · cases he; rfl
      · split at he
        · cases he; rfl
        · cases he

/-- Witness for C6 at a concrete upload: "scan.PDF" passes the PDF validator,
and a PDF upload named "photo.png" is rejected with status 400. -/
theorem validate_file_400_iff_witness :
    validate_pdf_file (some "scan.PDF") = .ok () ∧
    (∃ e, validate_pdf_file (some "photo.png") = .error e ∧ e.status_code = 400) :=
  ⟨(validate_file_400_iff (some "scan.PDF")).1.mpr
      ⟨"scan.PDF", rfl, by decide, by rfl⟩,
   ⟨{ status_code := 400, detail := "File must be a PDF" }, by rfl,
    (validate_file_400_iff (some "photo.png")).2.2.1 _ (by rfl)⟩⟩

/-! ## Filesystem, temp-file cleanup and the request handlers
(utils/file.py lines 88-101, tasks/workers.py lines 111-134,
api/v1/pdf.py `pdf_to_word` lines 40-82 and `split_pdf` lines 278-328)

The filesystem is a list of (path, byte size) pairs.  `os.remove` succeeding
is the only effect `cleanup_file` can have; its `try/except: pass` swallows
any error, so the embedded function is total. -/

abbrev FS := List (String × Nat)

def fsPaths (fs : FS) : List String := fs.map Prod.fst

/-- Translation of `os.path.exists`. -/
def fsExists (fs : FS) (p : String) : Bool := fs.any (fun e => e.1 == p)

/-- Translation of `cleanup_file` (utils/file.py lines 88-94): remove the file
if it exists; errors are swallowed, so the function always returns. -/
def cleanup_file (fs : FS) (p : String) : FS :=
  if fsExists fs p then fs.filter (fun e => e.1 != p) else fs

/-- Translation of `Path(p).stat().st_size` over the abstract filesystem. -/
def fsStat (fs : FS) (p : String) : Option Nat :=
  (fs.find? (fun e => e.1 == p)).map Prod.snd

/-- Settings `UPLOAD_DIR` (config.py line 32). -/
def UPLOAD_DIR : String := "./uploads"

/-- Settings `DOWNLOAD_DIR` (config.py line 33). -/
def DOWNLOAD_DIR : String := "./downloads"

/-- Path the static mount serves a `/downloads/...` URL from:
`app.mount("/downloads", StaticFiles(directory=settings.DOWNLOAD_DIR))`
(main.py line 48) with `DOWNLOAD_DIR = "./downloads"`, so the served file is
the URL prefixed with a dot. -/
def servedPath (url : String) : String := "." ++ url

structure FileResponseModel where
  file_url : String
  filename : String
  file_size : Nat
  processing_time : ℚ
deriving Repr, DecidableEq

/-- Filesystem state after the `try` body of the `pdf_to_word` endpoint:
the transformation either succeeded (its filesystem) or raised (the
filesystem as of the raise, here the one it was given, since the abstract
`convert` is the whole body). -/
def pdfToWordBodyFs (fs1 : FS) (convert : FS → Except String FS) : FS :=
  match convert fs1 with
  | .error _ => fs1
  | .ok fs2 => fs2

/-- Translation of the `pdf_to_word` endpoint (api/v1/pdf.py lines 40-82):
validate the upload, save the temp input, run the conversion inside
`try`, build the JSON response, and in `finally` call `cleanup_file` on the
temp input — on success, on a library exception, and on a missing output
file alike.  `t0` and `t1` are the two `time.time()` readings. -/
def pdfToWordEndpoint (fs : FS) (uploadFilename : Option String)
    (inputPath : String) (inputSize : Nat) (outputFilename : String)
    (convert : FS → Except String FS) (t0 t1 : ℚ) :
    Except HTTPError FileResponseModel × FS :=
  match validate_pdf_file uploadFilename with
  | .error e => (.error e, fs)
  | .ok _ =>
    let fs1 := (inputPath, inputSize) :: fs
    let result : Except HTTPError FileResponseModel :=
      match convert fs1 with
      | .error msg => .error { status_code := 500, detail := msg }
      | .ok fs2 =>
        match fsStat fs2 (DOWNLOAD_DIR ++ "/" ++ outputFilename) with
        | none => .error { status_code := 500, detail := "output file missing" }
        | some file_size =>
          .ok { file_url := "/downloads/" ++ outputFilename,
                filename := outputFilename,
                file_size := file_size,
                processing_time := t1 - t0 }
    (result, cleanup_file (pdfToWordBodyFs fs1 convert) inputPath)

/-- Removing a path with `cleanup_file` leaves no entry with that path. -/
theorem not_mem_cleanup_file (fs : FS) (p : String) :
    p ∉ fsPaths (cleanup_file fs p) := by
  unfold cleanup_file
  split
  · intro hmem
    simp only [fsPaths, List.mem_map, List.mem_filter, bne_iff_ne] at hmem
    obtain ⟨e, ⟨-, hne⟩, rfl⟩ := hmem
    exact hne rfl
  · intro hmem
    simp only [fsPaths, List.mem_map] at hmem
    obtain ⟨e, he, rfl⟩ := hmem
    rename_i hno
    apply hno
    simp only [fsExists, List.any_eq_true, beq_iff_eq]
    exact ⟨e, he, rfl⟩

/-- Entries for other paths survive `cleanup_file`. -/
theorem mem_cleanup_file_of_ne (fs : FS) (p : String) (e : String × Nat)
    (he : e ∈ fs) (hne : e.1 ≠ p) : e ∈ cleanup_file fs p := by
  unfold cleanup_file
  split
  · simp only [List.mem_filter, bne_iff_ne]
    exact ⟨he, hne⟩
  · exact he

/-- C5: on every request that passes upload validation, the saved temporary
input file is gone from the filesystem when the request completes — whatever
the transformation does (success, exception, or missing output): the cleanup
runs in the `finally` position and `cleanup_file` (which swallows every error
by construction, being a total function) removes the path. -/
theorem temp_input_always_cleaned (fs : FS) (uploadFilename : Option String)
    (inputPath : String) (inputSize : Nat) (outputFilename : String)
    (convert : FS → Except String FS) (t0 t1 : ℚ)
    (hv : validate_pdf_file uploadFilename = .ok ()) :
    inputPath ∉ fsPaths (pdfToWordEndpoint fs uploadFilename inputPath inputSize
      outputFilename convert t0 t1).2 := by
  unfold pdfToWordEndpoint
  rw [hv]
  exact not_mem_cleanup_file _ _

/-- Witness for C5: a concrete request (valid "a.pdf" upload, conversion
succeeding) whose final filesystem no longer holds the temp input. -/
theorem temp_input_always_cleaned_witness :
    "./uploads/pdf/in.pdf" ∉ fsPaths (pdfToWordEndpoint [] (some "a.pdf")
      "./uploads/pdf/in.pdf" 7 "out.docx" (fun g => .ok g) 0 1).2 :=
  temp_input_always_cleaned [] (some "a.pdf") "./uploads/pdf/in.pdf" 7
    "out.docx" (fun g => .ok g) 0 1 (by rfl)

/-! ## Periodic sweep — `cleanup_old_files` (workers.py lines 111-134) -/

structure StoredFile where
  path : String
  mtime : ℚ
deriving Repr, DecidableEq

/-- Translation of `cleanup_old_files` (workers.py lines 111-134) restricted
to one walk over the files under the upload and download directories:
a file is removed exactly when `current_time - getmtime(file) > max_age`
with `max_age = 3600`; per-file errors are swallowed (`except: pass`), and
removal itself is the only modelled effect. -/
def cleanup_old_files (now : ℚ) (files : List StoredFile) : List StoredFile :=
  files.filter (fun f => !(decide (now - f.mtime > 3600)))

/-- C7: request handlers delete only the temporary input they saved — every
other entry of the post-body filesystem survives the handler's cleanup — and
the periodic sweep keeps a file exactly when its modification time is not
more than 3600 seconds in the past, so no younger file is ever removed. -/
theorem outputs_deleted_only_by_age :
    (∀ (fs : FS) (uploadFilename : Option String) (inputPath : String)
        (inputSize : Nat) (outputFilename : String)
        (convert : FS → Except String FS) (t0 t1 : ℚ) (e : String × Nat),
      validate_pdf_file uploadFilename = .ok () →
      e ∈ pdfToWordBodyFs ((inputPath, inputSize) :: fs) convert →
      e.1 ≠ inputPath →
      e ∈ (pdfToWordEndpoint fs uploadFilename inputPath inputSize
        outputFilename convert t0 t1).2) ∧
    (∀ (now : ℚ) (files : List StoredFile) (f : StoredFile),
      f ∈ cleanup_old_files now files ↔
        f ∈ files ∧ ¬(3600 < now - f.mtime)) := by
  constructor
  · intro fs uploadFilename inputPath inputSize outputFilename convert t0 t1 e
      hv he hne
    unfold pdfToWordEndpoint
    rw [hv]
    exact mem_cleanup_file_of_ne _ _ _ he hne
  · intro now files f
    simp [cleanup_old_files, List.mem_filter]

/-- Witness for C7: a concrete successful request whose generated output file
"./downloads/out.docx" is still present after the handler's cleanup, and a
39-minute-old file that the sweep keeps. -/
theorem outputs_deleted_only_by_age_witness :
    ("./downloads/out.docx", 5) ∈ (pdfToWordEndpoint [] (some "a.pdf")
      "./uploads/pdf/in.pdf" 7 "out.docx"
      (fun g => .ok (("./downloads/out.docx", 5) :: g)) 0 1).2 ∧
    ({ path := "./downloads/young.pdf", mtime := 2660 } : StoredFile) ∈
      cleanup_old_files 5000 [{ path := "./downloads/young.pdf", mtime := 2660 }] :=
  ⟨outputs_deleted_only_by_age.1 [] (some "a.pdf") "./uploads/pdf/in.pdf" 7
      "out.docx" (fun g => .ok (("./downloads/out.docx", 5) :: g)) 0 1
      ("./downloads/out.docx", 5) (by rfl) (by simp [pdfToWordBodyFs])
      (by decide),
   (outputs_deleted_only_by_age.2 5000
      [{ path := "./downloads/young.pdf", mtime := 2660 }]
      { path := "./downloads/young.pdf", mtime := 2660 }).mpr
      ⟨by simp, by norm_num⟩⟩

/-! ## Split endpoint response — `split_pdf` endpoint (api/v1/pdf.py lines
278-328)

The endpoint names the output directory `f"DOWNLOAD_DIR/split_{int(time.time())}"`
before converting (line 293) and then, when building the per-file response
objects, embeds a fresh `int(time.time())` reading in each `file_url`
(line 317).  The two whole-second readings are the parameters `tDir` and
`tUrl`. -/

structure SplitFileInfo where
  file_url : String
  filename : String
  file_size : Nat
deriving Repr, DecidableEq

/-- Translation of the `files_info` loop of the split endpoint (api/v1/pdf.py
lines 313-320). -/
def splitFilesInfo (outputPaths : List String) (sizes : String → Nat)
    (tUrl : ℤ) : List SplitFileInfo :=
  outputPaths.map (fun path =>
    { file_url := "/downloads/split_" ++ toString tUrl ++ "/" ++ pyPathName path,
      filename := pyPathName path,
      file_size := sizes path })

/-- Translation of the write-then-respond core of the split endpoint
(api/v1/pdf.py lines 293-320): the written output paths, and the response
objects built from them. -/
def splitEndpointFiles (pdfPath : String) (totalPages : Nat) (mode : String)
    (startPage endPage : Option ℤ) (pages : Option (List ℤ)) (tDir tUrl : ℤ)
    (sizes : String → Nat) : List String × List SplitFileInfo :=
  let output_dir := DOWNLOAD_DIR ++ "/split_" ++ toString tDir
  let outputs := split_pdf pdfPath output_dir totalPages mode startPage endPage pages
  let paths := outputs.map (·.path)
  (paths, splitFilesInfo paths sizes tUrl)

/-- Taking while a predicate holds stops exactly at the first failure. -/
theorem takeWhile_append_cons {p : Char → Bool} {l₁ l₂ : List Char} {x : Char}
    (h1 : ∀ a ∈ l₁, p a = true) (h2 : p x = false) :
    (l₁ ++ x :: l₂).takeWhile p = l₁ := by
  induction l₁ with
  | nil => simp [List.takeWhile_cons, h2]
  | cons a as ih =>
    have ha : p a = true := h1 a (by simp)
    simp only [List.cons_append, List.takeWhile_cons, ha, if_true]
    rw [ih (fun b hb => h1 b (by simp [hb]))]

/-- Name component of a slash-joined path whose last component is slash-free. -/
theorem pyPathName_append (s t : String) (ht : ∀ c ∈ t.data, c ≠ '/') :
    pyPathName (s ++ "/" ++ t) = t := by
  unfold pyPathName
  have hdata : (s ++ "/" ++ t).data = (s.data ++ ['/']) ++ t.data := by
    simp [String.data_append]
  rw [hdata, List.reverse_append, List.reverse_append]
  have : ((['/'].reverse ++ s.data.reverse)) = '/' :: s.data.reverse := by simp
  rw [this]
  rw [takeWhile_append_cons (p := fun c => c ≠ '/')]
  · simp [String.ext_iff]
  · intro a ha
    simp only [decide_eq_true_eq]
    exact ht a (by simpa using ha)
  · simp

/-- C9 counterexample: a one-page "all" split processed across a second
boundary (directory named at second 100, response built at second 101) writes
"./downloads/split_100/doc_page_1.pdf" but returns the file_url
"/downloads/split_101/doc_page_1.pdf", which the static mount serves from
"./downloads/split_101/doc_page_1.pdf" — not the generated file's location,
contradicting the claim that file_url is '/downloads/' followed by the
generated output file. -/
theorem split_file_url_stale_timestamp :
    (splitEndpointFiles "doc.pdf" 1 "all" none none none 100 101
        (fun _ => 0)).1 = ["./downloads/split_100/doc_page_1.pdf"] ∧
    ((splitEndpointFiles "doc.pdf" 1 "all" none none none 100 101
        (fun _ => 0)).2.map (·.file_url)) =
      ["/downloads/split_101/doc_page_1.pdf"] ∧
    servedPath "/downloads/split_101/doc_page_1.pdf" ≠
      "./downloads/split_100/doc_page_1.pdf" := by
  refine ⟨by rfl, by rfl, by decide⟩

/-- C9 amended: a successful single-output conversion returns file_url
'/downloads/' + filename, served from the very path whose byte size was
reported, and processing_time = t1 - t0; the split endpoint builds its
per-file objects with a second clock reading, and its file_url resolves to
the path the file was written at exactly when that reading falls in the same
whole second as the one that named the output directory. -/
theorem endpoint_response_fields (fs : FS) (uploadFilename : Option String)
    (inputPath : String) (inputSize : Nat) (outputFilename : String)
    (convert : FS → Except String FS) (t0 t1 : ℚ) (fs2 : FS) (n : Nat)
    (hv : validate_pdf_file uploadFilename = .ok ())
    (hc : convert ((inputPath, inputSize) :: fs) = .ok fs2)
    (hstat : fsStat fs2 (DOWNLOAD_DIR ++ "/" ++ outputFilename) = some n) :
    ((pdfToWordEndpoint fs uploadFilename inputPath inputSize outputFilename
        convert t0 t1).1 =
      .ok { file_url := "/downloads/" ++ outputFilename,
            filename := outputFilename, file_size := n,
            processing_time := t1 - t0 } ∧
     servedPath ("/downloads/" ++ outputFilename) =
       DOWNLOAD_DIR ++ "/" ++ outputFilename) ∧
    (∀ (pdfPath : String) (totalPages : Nat) (mode : String)
        (startPage endPage : Option ℤ) (pages : Option (List ℤ)) (tDir : ℤ)
        (sizes : String → Nat) (name : String),
      (∀ c ∈ name.data, c ≠ '/') →
      let out := DOWNLOAD_DIR ++ "/split_" ++ toString tDir ++ "/" ++ name
      out ∈ (splitEndpointFiles pdfPath totalPages mode startPage endPage
        pages tDir tDir sizes).1 →
      { file_url := "/downloads/split_" ++ toString tDir ++ "/" ++ name,
        filename := name, file_size := sizes out } ∈
          (splitEndpointFiles pdfPath totalPages mode startPage endPage
            pages tDir tDir sizes).2 ∧
      servedPath ("/downloads/split_" ++ toString tDir ++ "/" ++ name) = out) := by
  constructor
  · constructor
    · unfold pdfToWordEndpoint
      rw [hv]
      dsimp only
      rw [hc]
      dsimp only
      rw [hstat]
    · rfl
  · intro pdfPath totalPages mode startPage endPage pages tDir sizes name hname
      out hmem
    constructor
    · simp only [splitEndpointFiles, splitFilesInfo, List.mem_map]
      refine ⟨out, by simpa [splitEndpointFiles] using hmem, ?_⟩
      have hpn : pyPathName out = name :=
        pyPathName_append (DOWNLOAD_DIR ++ "/split_" ++ toString tDir) name hname
      rw [hpn]
    · show "." ++ ("/downloads/split_" ++ toString tDir ++ "/" ++ name) =
        ("./downloads" ++ "/split_" ++ toString tDir) ++ "/" ++ name
      rw [← String.append_assoc, ← String.append_assoc, ← String.append_assoc]
      rfl

/-- Witness for C9 at a concrete request: a successful conversion of "a.pdf"
whose output "out.docx" has 5 bytes, and a same-second split whose response
entry points at the written file. -/
theorem endpoint_response_fields_witness :
    ((pdfToWordEndpoint [] (some "a.pdf") "./uploads/pdf/in.pdf" 7 "out.docx"
        (fun g => .ok (("./downloads/out.docx", 5) :: g)) 0 1).1 =
      .ok { file_url := "/downloads/out.docx", filename := "out.docx",
            file_size := 5, processing_time := 1 - 0 } ∧
     servedPath ("/downloads/" ++ "out.docx") =
       DOWNLOAD_DIR ++ "/" ++ "out.docx") ∧
    ({ file_url := "/downloads/split_" ++ toString (100 : ℤ) ++ "/" ++
          "doc_page_1.pdf",
       filename := "doc_page_1.pdf",
       file_size := (fun _ => 0 : String → Nat)
         (DOWNLOAD_DIR ++ "/split_" ++ toString (100 : ℤ) ++ "/" ++
          "doc_page_1.pdf") } : SplitFileInfo) ∈
        (splitEndpointFiles "doc.pdf" 1 "all" none none none 100 100
          (fun _ => 0)).2 ∧
    servedPath ("/downloads/split_" ++ toString (100 : ℤ) ++ "/" ++
        "doc_page_1.pdf") =
      DOWNLOAD_DIR ++ "/split_" ++ toString (100 : ℤ) ++ "/" ++
        "doc_page_1.pdf" := by
  have h1 := endpoint_response_fields [] (some "a.pdf") "./uploads/pdf/in.pdf"
    7 "out.docx" (fun g => .ok (("./downloads/out.docx", 5) :: g)) 0 1
    (("./downloads/out.docx", 5) :: ("./uploads/pdf/in.pdf", 7) :: []) 5
    (by rfl) (by rfl) (by rfl)
  have h2 := h1.2 "doc.pdf" 1 "all" none none none 100 (fun _ => 0)
    "doc_page_1.pdf" (by decide) (by decide)
  exact ⟨⟨h1.1.1, h1.1.2⟩, h2.1, h2.2⟩

/-! ## Passport photo — `create_passport_photo` (passport.py lines 39-131)

Python float arithmetic is modelled with exact rationals (the constants 0.9,
0.75, 0.05 become 9/10, 3/4, 1/20) and `int(...)` with truncation toward
zero; `//` on integers is floor division (`Int.fdiv`). -/

/-- Python `int(q)`: truncation toward zero. -/
def pyInt (q : ℚ) : ℤ := if q < 0 then -(⌊-q⌋) else ⌊q⌋

/-- Translation of `mm_to_pixels` (passport.py lines 34-36):
`int(mm * 300 / 25.4)` at the default `PRINT_DPI = 300`. -/
def mm_to_pixels (mm : ℚ) : ℤ := pyInt (mm * 300 / (254 / 10))

/-- Translation of `PASSPORT_SIZES` (passport.py lines 19-28). -/
def PASSPORT_SIZES : List (String × (ℚ × ℚ)) :=
  [("us", (51, 51)), ("uk", (35, 45)), ("eu", (35, 45)), ("india", (35, 45)),
   ("china", (33, 48)), ("japan", (35, 45)), ("canada", (50, 70)),
   ("australia", (35, 45))]

/-- Translation of `PASSPORT_SIZES.get(size.lower(), (51, 51))`. -/
def sizeLookup (size : String) : ℚ × ℚ :=
  ((PASSPORT_SIZES.find? (fun e => e.1 == strToLower size)).map (·.2)).getD (51, 51)

/-- Translation of the dimension choice `if custom_width_mm and
custom_height_mm` (passport.py lines 61-65): Python truthiness makes the
custom pair win only when both values are present and nonzero. -/
def passportDims (size : String) (cw ch : Option ℤ) : ℚ × ℚ :=
  match cw, ch with
  | some w, some h =>
    if w ≠ 0 ∧ h ≠ 0 then ((w : ℚ), (h : ℚ)) else sizeLookup size
  | _, _ => sizeLookup size

structure PassportLayout where
  target_width : ℤ
  target_height : ℤ
  new_width : ℤ
  new_height : ℤ
  x_offset : ℤ
  y_offset : ℤ
deriving Repr, DecidableEq

/-- Translation of the scale-and-place block of `create_passport_photo`
(passport.py lines 100-122): `head_ratio = 0.75`, fit to 90% of the width
when the foreground aspect ratio exceeds the target aspect ratio, else scale
the height to 75%; centre horizontally with `//`, and set the vertical offset
to leave `int(target_height * 0.05)` below the foreground. -/
def passportLayout (target_width target_height fgW fgH : ℤ) : PassportLayout :=
  let fg_aspect : ℚ := (fgW : ℚ) / (fgH : ℚ)
  let target_aspect : ℚ := (target_width : ℚ) / (target_height : ℚ)
  let wh :=
    if target_aspect < fg_aspect then
      let nw := pyInt ((target_width : ℚ) * (9 / 10))
      (nw, pyInt ((nw : ℚ) / fg_aspect))
    else
      let nh := pyInt ((target_height : ℚ) * (3 / 4))
      (pyInt ((nh : ℚ) * fg_aspect), nh)
  { target_width := target_width
    target_height := target_height
    new_width := wh.1
    new_height := wh.2
    x_offset := (target_width - wh.1).fdiv 2
    y_offset := target_height - wh.2 - pyInt ((target_height : ℚ) * (1 / 20)) }

/-- Translation of `create_passport_photo` (passport.py lines 39-131),
restricted to the dimension and placement arithmetic: the background canvas
has the target pixel dimensions, and the foreground (of pixel size
`fgW × fgH`) is resized and pasted at the computed offsets. -/
def create_passport_photo (size : String) (cw ch : Option ℤ) (fgW fgH : ℤ) :
    PassportLayout :=
  let dims := passportDims size cw ch
  passportLayout (mm_to_pixels dims.1) (mm_to_pixels dims.2) fgW fgH

theorem pyInt_of_nonneg {q : ℚ} (h : 0 ≤ q) : pyInt q = ⌊q⌋ := by
  unfold pyInt
  rw [if_neg (not_lt.mpr h)]

theorem pyInt_nonneg {q : ℚ} (h : 0 ≤ q) : 0 ≤ pyInt q := by
  rw [pyInt_of_nonneg h]
  exact Int.floor_nonneg.mpr h

theorem pyInt_le {q : ℚ} (h : 0 ≤ q) : (pyInt q : ℚ) ≤ q := by
  rw [pyInt_of_nonneg h]
  exact Int.floor_le q

/-- Bounds for the fit-to-width branch (fg aspect exceeds target aspect):
the scaled width stays within the target width and the scaled height within
90% of the target height. -/
theorem fit_width_bounds (tW tH fgW fgH : ℤ) (htW : 0 < tW) (htH : 0 < tH)
    (hfgW : 0 < fgW) (hfgH : 0 < fgH)
    (hbr : (tW : ℚ) / (tH : ℚ) < (fgW : ℚ) / (fgH : ℚ)) :
    0 ≤ pyInt ((tW : ℚ) * (9 / 10)) ∧
    pyInt ((tW : ℚ) * (9 / 10)) ≤ tW ∧
    0 ≤ pyInt ((pyInt ((tW : ℚ) * (9 / 10)) : ℚ) / ((fgW : ℚ) / (fgH : ℚ))) ∧
    (pyInt ((pyInt ((tW : ℚ) * (9 / 10)) : ℚ) / ((fgW : ℚ) / (fgH : ℚ))) : ℚ)
      ≤ (9 / 10) * (tH : ℚ) := by
  have htWq : (0 : ℚ) < (tW : ℚ) := by exact_mod_cast htW
  have htHq : (0 : ℚ) < (tH : ℚ) := by exact_mod_cast htH
  have hfgWq : (0 : ℚ) < (fgW : ℚ) := by exact_mod_cast hfgW
  have hfgHq : (0 : ℚ) < (fgH : ℚ) := by exact_mod_cast hfgH
  have hta : (0 : ℚ) < (tW : ℚ) / (tH : ℚ) := by positivity
  have hfa : (0 : ℚ) < (fgW : ℚ) / (fgH : ℚ) := by positivity
  have h90 : (0 : ℚ) ≤ (tW : ℚ) * (9 / 10) := by positivity
  have hnw0 : 0 ≤ pyInt ((tW : ℚ) * (9 / 10)) := pyInt_nonneg h90
  have hnwle : (pyInt ((tW : ℚ) * (9 / 10)) : ℚ) ≤ (tW : ℚ) * (9 / 10) :=
    pyInt_le h90
  have hnwq0 : (0 : ℚ) ≤ (pyInt ((tW : ℚ) * (9 / 10)) : ℚ) := by
    exact_mod_cast hnw0
  have hnwtW : pyInt ((tW : ℚ) * (9 / 10)) ≤ tW := by
    have h : (pyInt ((tW : ℚ) * (9 / 10)) : ℚ) ≤ (tW : ℚ) := by nlinarith
    exact_mod_cast h
  have harg : (0 : ℚ) ≤ (pyInt ((tW : ℚ) * (9 / 10)) : ℚ) / ((fgW : ℚ) / (fgH : ℚ)) :=
    div_nonneg hnwq0 (le_of_lt hfa)
  have hnh0 : 0 ≤ pyInt ((pyInt ((tW : ℚ) * (9 / 10)) : ℚ) / ((fgW : ℚ) / (fgH : ℚ))) :=
    pyInt_nonneg harg
  have hnhle := pyInt_le harg
  have hstep : (pyInt ((tW : ℚ) * (9 / 10)) : ℚ) / ((fgW : ℚ) / (fgH : ℚ)) ≤
      (pyInt ((tW : ℚ) * (9 / 10)) : ℚ) / ((tW : ℚ) / (tH : ℚ)) := by
    have h1 : (1 : ℚ) / ((fgW : ℚ) / (fgH : ℚ)) ≤ 1 / ((tW : ℚ) / (tH : ℚ)) :=
      one_div_le_one_div_of_le hta (le_of_lt hbr)
    calc (pyInt ((tW : ℚ) * (9 / 10)) : ℚ) / ((fgW : ℚ) / (fgH : ℚ))
        = (pyInt ((tW : ℚ) * (9 / 10)) : ℚ) * (1 / ((fgW : ℚ) / (fgH : ℚ))) := by
          ring
      _ ≤ (pyInt ((tW : ℚ) * (9 / 10)) : ℚ) * (1 / ((tW : ℚ) / (tH : ℚ))) :=
          mul_le_mul_of_nonneg_left h1 hnwq0
      _ = (pyInt ((tW : ℚ) * (9 / 10)) : ℚ) / ((tW : ℚ) / (tH : ℚ)) := by ring
  have hstep2 : (pyInt ((tW : ℚ) * (9 / 10)) : ℚ) / ((tW : ℚ) / (tH : ℚ)) ≤
      (9 / 10) * (tH : ℚ) := by
    rw [div_le_iff₀ hta]
    have heq : (9 / 10 : ℚ) * (tH : ℚ) * ((tW : ℚ) / (tH : ℚ)) =
        (tW : ℚ) * (9 / 10) := by
      field_simp
      ring
    rw [heq]
    exact hnwle
  exact ⟨hnw0, hnwtW, hnh0, le_trans hnhle (le_trans hstep hstep2)⟩

/-- Bounds for the fit-to-height branch (fg aspect at most target aspect):
the scaled height is 75% of the target height, and the scaled width stays
within the target width. -/
theorem fit_height_bounds (tW tH fgW fgH : ℤ) (htW : 0 < tW) (htH : 0 < tH)
    (hfgW : 0 < fgW) (hfgH : 0 < fgH)
    (hbr : ¬((tW : ℚ) / (tH : ℚ) < (fgW : ℚ) / (fgH : ℚ))) :
    0 ≤ pyInt ((tH : ℚ) * (3 / 4)) ∧
    (pyInt ((tH : ℚ) * (3 / 4)) : ℚ) ≤ (3 / 4) * (tH : ℚ) ∧
    0 ≤ pyInt ((pyInt ((tH : ℚ) * (3 / 4)) : ℚ) * ((fgW : ℚ) / (fgH : ℚ))) ∧
    pyInt ((pyInt ((tH : ℚ) * (3 / 4)) : ℚ) * ((fgW : ℚ) / (fgH : ℚ))) ≤ tW := by
  have htWq : (0 : ℚ) < (tW : ℚ) := by exact_mod_cast htW
  have htHq : (0 : ℚ) < (tH : ℚ) := by exact_mod_cast htH
  have hfgWq : (0 : ℚ) < (fgW : ℚ) := by exact_mod_cast hfgW
  have hfgHq : (0 : ℚ) < (fgH : ℚ) := by exact_mod_cast hfgH
  have hta : (0 : ℚ) < (tW : ℚ) / (tH : ℚ) := by positivity
  have hfa : (0 : ℚ) < (fgW : ℚ) / (fgH : ℚ) := by positivity
  have hfale : (fgW : ℚ) / (fgH : ℚ) ≤ (tW : ℚ) / (tH : ℚ) := not_lt.mp hbr
  have h75 : (0 : ℚ) ≤ (tH : ℚ) * (3 / 4) := by positivity
  have hnh0 : 0 ≤ pyInt ((tH : ℚ) * (3 / 4)) := pyInt_nonneg h75
  have hnhle : (pyInt ((tH : ℚ) * (3 / 4)) : ℚ) ≤ (tH : ℚ) * (3 / 4) :=
    pyInt_le h75
  have hnhq0 : (0 : ℚ) ≤ (pyInt ((tH : ℚ) * (3 / 4)) : ℚ) := by exact_mod_cast hnh0
  have harg : (0 : ℚ) ≤ (pyInt ((tH : ℚ) * (3 / 4)) : ℚ) * ((fgW : ℚ) / (fgH : ℚ)) := by
    positivity
  have hnw0 : 0 ≤ pyInt ((pyInt ((tH : ℚ) * (3 / 4)) : ℚ) * ((fgW : ℚ) / (fgH : ℚ))) :=
    pyInt_nonneg harg
  have hnwle := pyInt_le harg
  have hstep : (pyInt ((tH : ℚ) * (3 / 4)) : ℚ) * ((fgW : ℚ) / (fgH : ℚ)) ≤
      (pyInt ((tH : ℚ) * (3 / 4)) : ℚ) * ((tW : ℚ) / (tH : ℚ)) :=
    mul_le_mul_of_nonneg_left hfale hnhq0
  have hstep2 : (pyInt ((tH : ℚ) * (3 / 4)) : ℚ) * ((tW : ℚ) / (tH : ℚ)) ≤
      (3 / 4) * (tW : ℚ) := by
    have heq : ((tH : ℚ) * (3 / 4)) * ((tW : ℚ) / (tH : ℚ)) =
        (3 / 4) * (tW : ℚ) := by
      field_simp
      ring
    calc (pyInt ((tH : ℚ) * (3 / 4)) : ℚ) * ((tW : ℚ) / (tH : ℚ))
        ≤ ((tH : ℚ) * (3 / 4)) * ((tW : ℚ) / (tH : ℚ)) :=
          mul_le_mul_of_nonneg_right hnhle (le_of_lt hta)
      _ = (3 / 4) * (tW : ℚ) := heq
  have hnwtW : pyInt ((pyInt ((tH : ℚ) * (3 / 4)) : ℚ) * ((fgW : ℚ) / (fgH : ℚ))) ≤ tW := by
    have h : (pyInt ((pyInt ((tH : ℚ) * (3 / 4)) : ℚ) * ((fgW : ℚ) / (fgH : ℚ))) : ℚ)
        ≤ (tW : ℚ) := by nlinarith
    exact_mod_cast h
  exact ⟨hnh0, hnhle.trans (by ring_nf; exact le_refl _), hnw0, hnwtW⟩

/-- C8 counterexample: with custom dimensions (0, 35) — both supplied — the
claim says the canvas width should come from the custom value (0 mm, i.e. 0
pixels), but Python truthiness makes a zero custom value fall back to the
named size: "us" gives 51 mm = 602 pixels. -/
theorem passport_custom_zero_ignored :
    (create_passport_photo "us" (some 0) (some 35) 100 150).target_width = 602 ∧
    mm_to_pixels ((0 : ℤ) : ℚ) = 0 ∧ ((602 : ℤ) ≠ 0) := by
  refine ⟨?_, ?_, by decide⟩
  · have hdims : passportDims "us" (some 0) (some 35) = ((51 : ℚ), (51 : ℚ)) := by
      simp only [passportDims]
      rw [if_neg (by simp)]
      rfl
    have hmm : mm_to_pixels 51 = 602 := by
      unfold mm_to_pixels
      rw [pyInt_of_nonneg (by norm_num)]
      rw [Int.floor_eq_iff]
      norm_num
    show (passportLayout (mm_to_pixels (passportDims "us" (some 0) (some 35)).1)
      (mm_to_pixels (passportDims "us" (some 0) (some 35)).2) 100 150).target_width = 602
    rw [hdims]
    show mm_to_pixels 51 = 602
    exact hmm
  · unfold mm_to_pixels
    rw [pyInt_of_nonneg (by norm_num)]
    norm_num

/-- C8 amended: the canvas always measures `mm_to_pixels width_mm` by
`mm_to_pixels height_mm` pixels, where the millimetre dimensions come from
the custom values when both are supplied and nonzero (Python truthiness
treats a supplied 0 as absent) and otherwise from the named size with
(51, 51) for unknown names; positive millimetre sizes give positive pixel
sizes; and for positive target and foreground dimensions the scaled
foreground lies fully inside the canvas — centred horizontally, bottom edge
`int(target_height * 0.05)` above the canvas bottom, scaled at 90% of the
width when the foreground aspect ratio exceeds the target aspect ratio and
at 75% of the height otherwise, never exceeding the target dimensions. -/
theorem create_passport_photo_spec :
    (∀ (size : String) (w h : ℤ), w ≠ 0 → h ≠ 0 →
      passportDims size (some w) (some h) = ((w : ℚ), (h : ℚ))) ∧
    (∀ (size : String) (ch : Option ℤ),
      passportDims size none ch = sizeLookup size) ∧
    (∀ (size : String) (cw : Option ℤ),
      passportDims size cw none = sizeLookup size) ∧
    (∀ size : String,
      PASSPORT_SIZES.find? (fun e => e.1 == strToLower size) = none →
      sizeLookup size = (51, 51)) ∧
    (∀ mm : ℤ, 0 < mm → 0 < mm_to_pixels (mm : ℚ)) ∧
    (∀ (size : String) (cw ch : Option ℤ) (fgW fgH : ℤ),
      (create_passport_photo size cw ch fgW fgH).target_width =
        mm_to_pixels (passportDims size cw ch).1 ∧
      (create_passport_photo size cw ch fgW fgH).target_height =
        mm_to_pixels (passportDims size cw ch).2) ∧
    (∀ tW tH fgW fgH : ℤ, 0 < tW → 0 < tH → 0 < fgW → 0 < fgH →
      0 ≤ (passportLayout tW tH fgW fgH).new_width ∧
      (passportLayout tW tH fgW fgH).new_width ≤ tW ∧
      0 ≤ (passportLayout tW tH fgW fgH).new_height ∧
      (passportLayout tW tH fgW fgH).new_height ≤ tH ∧
      0 ≤ (passportLayout tW tH fgW fgH).x_offset ∧
      (passportLayout tW tH fgW fgH).x_offset +
        (passportLayout tW tH fgW fgH).new_width ≤ tW ∧
      (passportLayout tW tH fgW fgH).x_offset =
        (tW - (passportLayout tW tH fgW fgH).new_width).fdiv 2 ∧
      0 ≤ (passportLayout tW tH fgW fgH).y_offset ∧
      (passportLayout tW tH fgW fgH).y_offset +
        (passportLayout tW tH fgW fgH).new_height =
        tH - pyInt ((tH : ℚ) * (1 / 20)) ∧
      (passportLayout tW tH fgW fgH).y_offset +
        (passportLayout tW tH fgW fgH).new_height ≤ tH ∧
      ((tW : ℚ) / (tH : ℚ) < (fgW : ℚ) / (fgH : ℚ) →
        (passportLayout tW tH fgW fgH).new_width = pyInt ((tW : ℚ) * (9 / 10))) ∧
      (¬((tW : ℚ) / (tH : ℚ) < (fgW : ℚ) / (fgH : ℚ)) →
        (passportLayout tW tH fgW fgH).new_height = pyInt ((tH : ℚ) * (3 / 4)))) := by
  refine ⟨?_, ?_, ?_, ?_, ?_, ?_, ?_⟩
  · intro size w h hw hh
    simp only [passportDims]
    rw [if_pos ⟨hw, hh⟩]
  · intro size ch
    unfold passportDims
    cases ch <;> rfl
  · intro size cw
    unfold passportDims
    cases cw <;> rfl
  · intro size hfind
    unfold sizeLookup
    rw [hfind]
    rfl
  · intro mm hmm
    have hmmq : (1 : ℚ) ≤ (mm : ℚ) := by exact_mod_cast hmm
    have harg : (1 : ℚ) ≤ (mm : ℚ) * 300 / (254 / 10) := by
      rw [le_div_iff₀ (by norm_num)]
      nlinarith
    unfold mm_to_pixels
    rw [pyInt_of_nonneg (by linarith)]
    have := Int.le_floor.mpr (by exact_mod_cast harg : ((1 : ℤ) : ℚ) ≤ (mm : ℚ) * 300 / (254 / 10))
    omega
  · intro size cw ch fgW fgH
    exact ⟨rfl, rfl⟩
  · intro tW tH fgW fgH htW htH hfgW hfgH
    have hmargin : (0 : ℚ) ≤ (tH : ℚ) * (1 / 20) := by
      have : (0 : ℚ) ≤ (tH : ℚ) := by exact_mod_cast le_of_lt htH
      positivity
    have hm0 : 0 ≤ pyInt ((tH : ℚ) * (1 / 20)) := pyInt_nonneg hmargin
    have hmle : (pyInt ((tH : ℚ) * (1 / 20)) : ℚ) ≤ (tH : ℚ) * (1 / 20) :=
      pyInt_le hmargin
    by_cases hbr : (tW : ℚ) / (tH : ℚ) < (fgW : ℚ) / (fgH : ℚ)
    · obtain ⟨hnw0, hnwtW, hnh0, hnhle⟩ :=
        fit_width_bounds tW tH fgW fgH htW htH hfgW hfgH hbr
      have hL : passportLayout tW tH fgW fgH =
          { target_width := tW, target_height := tH,
            new_width := pyInt ((tW : ℚ) * (9 / 10)),
            new_height := pyInt ((pyInt ((tW : ℚ) * (9 / 10)) : ℚ) /
              ((fgW : ℚ) / (fgH : ℚ))),
            x_offset := (tW - pyInt ((tW : ℚ) * (9 / 10))).fdiv 2,
            y_offset := tH - pyInt ((pyInt ((tW : ℚ) * (9 / 10)) : ℚ) /
              ((fgW : ℚ) / (fgH : ℚ))) - pyInt ((tH : ℚ) * (1 / 20)) } := by
        unfold passportLayout
        dsimp only
        rw [if_pos hbr]
      have hnhtH : pyInt ((pyInt ((tW : ℚ) * (9 / 10)) : ℚ) /
          ((fgW : ℚ) / (fgH : ℚ))) ≤ tH := by
        have htHq : (0 : ℚ) ≤ (tH : ℚ) := by exact_mod_cast le_of_lt htH
        have h1 : (pyInt ((pyInt ((tW : ℚ) * (9 / 10)) : ℚ) /
            ((fgW : ℚ) / (fgH : ℚ))) : ℚ) ≤ (tH : ℚ) := by nlinarith
        exact_mod_cast h1
      have hsum : pyInt ((pyInt ((tW : ℚ) * (9 / 10)) : ℚ) /
          ((fgW : ℚ) / (fgH : ℚ))) + pyInt ((tH : ℚ) * (1 / 20)) ≤ tH := by
        have htHq : (0 : ℚ) ≤ (tH : ℚ) := by exact_mod_cast le_of_lt htH
        have h1 : ((pyInt ((pyInt ((tW : ℚ) * (9 / 10)) : ℚ) /
            ((fgW : ℚ) / (fgH : ℚ))) + pyInt ((tH : ℚ) * (1 / 20)) : ℤ) : ℚ) ≤
            (tH : ℚ) := by push_cast; nlinarith
        exact_mod_cast h1
      have hx0 : 0 ≤ (tW - pyInt ((tW : ℚ) * (9 / 10))).fdiv 2 :=
        Int.fdiv_nonneg (by omega) (by norm_num)
      have hxle : (tW - pyInt ((tW : ℚ) * (9 / 10))).fdiv 2 ≤
          tW - pyInt ((tW : ℚ) * (9 / 10)) := by
        rw [Int.fdiv_eq_ediv _ (by norm_num)]
        exact Int.ediv_le_self _ (by omega)
      rw [hL]
      refine ⟨?_, ?_, ?_, ?_, ?_, ?_, ?_, ?_, ?_, ?_, ?_, ?_⟩ <;> dsimp only
      all_goals
        first
          | rfl
          | exact hnw0
          | exact hnwtW
          | exact hnh0
          | exact hnhtH
          | exact hx0
          | omega
          | exact fun _ => rfl
          | exact fun hc => absurd hbr hc
    · obtain ⟨hnh0, hnhle, hnw0, hnwtW⟩ :=
        fit_height_bounds tW tH fgW fgH htW htH hfgW hfgH hbr
      have hL : passportLayout tW tH fgW fgH =
          { target_width := tW, target_height := tH,
            new_width := pyInt ((pyInt ((tH : ℚ) * (3 / 4)) : ℚ) *
              ((fgW : ℚ) / (fgH : ℚ))),
            new_height := pyInt ((tH : ℚ) * (3 / 4)),
            x_offset := (tW - pyInt ((pyInt ((tH : ℚ) * (3 / 4)) : ℚ) *
              ((fgW : ℚ) / (fgH : ℚ)))).fdiv 2,
            y_offset := tH - pyInt ((tH : ℚ) * (3 / 4)) -
              pyInt ((tH : ℚ) * (1 / 20)) } := by
        unfold passportLayout
        dsimp only
        rw [if_neg hbr]
      have hnhtH : pyInt ((tH : ℚ) * (3 / 4)) ≤ tH := by
        have htHq : (0 : ℚ) ≤ (tH : ℚ) := by exact_mod_cast le_of_lt htH
        have h1 : (pyInt ((tH : ℚ) * (3 / 4)) : ℚ) ≤ (tH : ℚ) := by nlinarith
        exact_mod_cast h1
      have hsumv : pyInt ((tH : ℚ) * (3 / 4)) + pyInt ((tH : ℚ) * (1 / 20)) ≤ tH := by
        have htHq : (0 : ℚ) ≤ (tH : ℚ) := by exact_mod_cast le_of_lt htH
        have h1 : ((pyInt ((tH : ℚ) * (3 / 4)) + pyInt ((tH : ℚ) * (1 / 20)) : ℤ) : ℚ)
            ≤ (tH : ℚ) := by push_cast; nlinarith
        exact_mod_cast h1
      have hx0 : 0 ≤ (tW - pyInt ((pyInt ((tH : ℚ) * (3 / 4)) : ℚ) *
          ((fgW : ℚ) / (fgH : ℚ)))).fdiv 2 :=
        Int.fdiv_nonneg (by omega) (by norm_num)
      have hxle : (tW - pyInt ((pyInt ((tH : ℚ) * (3 / 4)) : ℚ) *
          ((fgW : ℚ) / (fgH : ℚ)))).fdiv 2 ≤
          tW - pyInt ((pyInt ((tH : ℚ) * (3 / 4)) : ℚ) * ((fgW : ℚ) / (fgH : ℚ))) := by
        rw [Int.fdiv_eq_ediv _ (by norm_num)]
        exact Int.ediv_le_self _ (by omega)
      rw [hL]
      refine ⟨?_, ?_, ?_, ?_, ?_, ?_, ?_, ?_, ?_, ?_, ?_, ?_⟩ <;> dsimp only
      all_goals
        first
          | rfl
          | exact hnw0
          | exact hnwtW
          | exact hnh0
          | exact hnhtH
          | exact hx0
          | omega
          | exact fun _ => rfl
          | exact fun hc => absurd hc hbr

/-- Witness for C8: nonzero custom dimensions (40, 60) are used as given, and
at a 602 × 602 canvas with a 100 × 150 foreground every placement bound of
the amended claim holds, in particular the horizontal offset is nonnegative. -/
theorem create_passport_photo_spec_witness :
    passportDims "us" (some 40) (some 60) = ((40 : ℚ), (60 : ℚ)) ∧
    0 ≤ (passportLayout 602 602 100 150).x_offset :=
  ⟨create_passport_photo_spec.1 "us" 40 60 (by decide) (by decide),
   (create_passport_photo_spec.2.2.2.2.2.2 602 602 100 150 (by decide)
      (by decide) (by decide) (by decide)).2.2.2.2.1⟩

end AdobeWork
